import Mathlib

/-! Verification of the metrics engine of `src/app.py` (retail sales
dashboard). The script loads three tables (`sales`, `customers`,
`inventory`), inner-joins them, applies a category filter, and computes
scalar KPIs, per-product and per-customer aggregates, a frequency-based
customer segmentation, a repeat-customer metric, a loyalty aggregate and a
monthly revenue series. Tables are modelled as lists of rows, `pandas`
group-by as key-sorted grouping, and the numeric `price` columns as exact
integers (every value the claims exercise is integral). -/

/-- Calendar date: the value `pandas` exposes as `Series.dt.date`. -/
structure Date where
  year : Nat
  month : Nat
  day : Nat
deriving DecidableEq

/-- Timestamp: a calendar date plus a time-of-day component, modelling a
`transactiondate` value of dtype `datetime64`. -/
structure Timestamp where
  date : Date
  timeOfDay : Nat
deriving DecidableEq

/-- One row of the `sales` table; `price` is the sale-time unit price. -/
structure SaleRow where
  transactionid : Nat
  productid : Nat
  customerid : Nat
  quantitypurchased : Nat
  price : Int
  transactiondate : Timestamp
deriving DecidableEq

/-- One row of the `customers` table. -/
structure CustomerRow where
  customerid : Nat
  age : Nat
  gender : String
  location : String
deriving DecidableEq

/-- One row of the `inventory` table; `price` is the current list price. -/
structure InventoryRow where
  productid : Nat
  productname : String
  category : String
  price : Int
deriving DecidableEq

/-- One row of `pd.merge(pd.merge(sales, inventory, on="productid"),
customers, on="customerid")` (lines 55-56). Both frames of the first merge
carry a `price` column, so `pandas` renames the left (sales) copy `price_x`
and the right (inventory) copy `price_y`. -/
structure MergedRow where
  transactionid : Nat
  productid : Nat
  customerid : Nat
  quantitypurchased : Nat
  price_x : Int
  transactiondate : Timestamp
  productname : String
  category : String
  price_y : Int
  age : Nat
  gender : String
  location : String
deriving DecidableEq

/-- The `Series.nunique()` aggregation: number of distinct values. -/
def nunique {α : Type} [DecidableEq α] (l : List α) : Nat := l.dedup.length

/-- Code-point lexicographic comparison of character lists: the order Python
uses on `str` values, hence the order `pandas` sorts string group keys in. -/
def chLe : List Char → List Char → Bool
  | [], _ => true
  | _ :: _, [] => false
  | a :: as, b :: bs => if a < b then true else if b < a then false else chLe as bs

/-- Lexicographic order on strings, via `chLe` on the character data. -/
def strOrd (a b : String) : Prop := chLe a.data b.data = true

instance : DecidableRel strOrd := fun a b =>
  inferInstanceAs (Decidable (chLe a.data b.data = true))

/-- Group keys of `DataFrame.groupby` for an integer key column: with the
default `sort=True` the distinct keys appear in ascending order. -/
def sortedKeysN (l : List Nat) : List Nat := l.dedup.insertionSort (· ≤ ·)

/-- Group keys of `DataFrame.groupby` for a string key column: the distinct
keys in ascending lexicographic order. -/
def sortedKeysS (l : List String) : List String := l.dedup.insertionSort strOrd

/-- Line 55: inner join of `sales` with `inventory` on `productid`. Each sale
row is paired with every matching inventory row; left-frame row order is
preserved. -/
def salesInventory (sales : List SaleRow) (inventory : List InventoryRow) :
    List (SaleRow × InventoryRow) :=
  sales.flatMap fun s =>
    (inventory.filter fun i => decide (i.productid = s.productid)).map fun i => (s, i)

/-- The merged row built from one sale, its matching inventory row and its
matching customer row: `price_x` is the sale's price (left frame of the
first merge), `price_y` the inventory price (right frame). -/
def mkMergedRow (s : SaleRow) (i : InventoryRow) (c : CustomerRow) : MergedRow :=
  { transactionid := s.transactionid
    productid := s.productid
    customerid := s.customerid
    quantitypurchased := s.quantitypurchased
    price_x := s.price
    transactiondate := s.transactiondate
    productname := i.productname
    category := i.category
    price_y := i.price
    age := c.age
    gender := c.gender
    location := c.location }

/-- Line 56: inner join with `customers` on `customerid`, flattened into the
merged table. -/
def merged (sales : List SaleRow) (inventory : List InventoryRow)
    (customers : List CustomerRow) : List MergedRow :=
  (salesInventory sales inventory).flatMap fun si =>
    (customers.filter fun c => decide (c.customerid = si.1.customerid)).map fun c =>
      mkMergedRow si.1 si.2 c

/-- Line 57: `merged = merged[merged["category"].isin(category_filter)]`. -/
def mergedFiltered (categoryFilter : List String) (sales : List SaleRow)
    (inventory : List InventoryRow) (customers : List CustomerRow) : List MergedRow :=
  (merged sales inventory customers).filter fun r => decide (r.category ∈ categoryFilter)

/-- Line 61: `total_revenue = (merged["quantitypurchased"] * merged["price_x"]).sum()`. -/
def total_revenue (categoryFilter : List String) (sales : List SaleRow)
    (inventory : List InventoryRow) (customers : List CustomerRow) : Int :=
  ((mergedFiltered categoryFilter sales inventory customers).map
    fun r => (r.quantitypurchased : Int) * r.price_x).sum

/-- Line 62: `total_orders = merged["transactionid"].nunique()`. -/
def total_orders (categoryFilter : List String) (sales : List SaleRow)
    (inventory : List InventoryRow) (customers : List CustomerRow) : Nat :=
  nunique ((mergedFiltered categoryFilter sales inventory customers).map
    fun r => r.transactionid)

/-- Line 63: `total_customers = merged["customerid"].nunique()`. -/
def total_customers (categoryFilter : List String) (sales : List SaleRow)
    (inventory : List InventoryRow) (customers : List CustomerRow) : Nat :=
  nunique ((mergedFiltered categoryFilter sales inventory customers).map
    fun r => r.customerid)

/-- Lines 71-74: group the filtered merged table by `productname` (keys
sorted ascending); `total_units_sold` sums `quantitypurchased`, and the
group revenue sums `price_x * quantitypurchased`. A result row is
`(productname, total_units_sold, total_revenue)`. -/
def product_perf (categoryFilter : List String) (sales : List SaleRow)
    (inventory : List InventoryRow) (customers : List CustomerRow) :
    List (String × Nat × Int) :=
  let m := mergedFiltered categoryFilter sales inventory customers
  (sortedKeysS (m.map fun r => r.productname)).map fun n =>
    let rows := m.filter fun r => decide (r.productname = n)
    (n, (rows.map fun r => r.quantitypurchased).sum,
     (rows.map fun r => r.price_x * (r.quantitypurchased : Int)).sum)

/-- Comparison of two product-performance rows by `total_units_sold`. -/
def unitsLe (a b : String × Nat × Int) : Prop := a.2.1 ≤ b.2.1

instance : DecidableRel unitsLe := fun a b =>
  inferInstanceAs (Decidable (a.2.1 ≤ b.2.1))

/-- The `DataFrame.sort_values` step keyed on `total_units_sold` (lines 77
and 80). `pandas` argsorts the key column ascending with the default
`kind='quicksort'` (numpy introsort: deterministic, but with no tie-order
guarantee on large arrays) and, for `ascending=False`, reverses the
resulting indexer (`nargsort`). The model realises the ascending argsort
as an insertion sort; that choice is exact on frames below numpy's
small-array sort threshold — in particular on the three-product fixtures
used here — and no theorem asserts a tie order beyond those concrete
frames: general statements are limited to sortedness, being a permutation,
and the descending order being the reverse of the ascending one, which
hold for any argsort realisation. -/
def sort_values (ascending : Bool) (l : List (String × Nat × Int)) :
    List (String × Nat × Int) :=
  let asc := l.insertionSort unitsLe
  if ascending then asc else asc.reverse

/-- Line 77: the ten rows charted as "Top 10 Products by Units Sold". -/
def topProducts (categoryFilter : List String) (sales : List SaleRow)
    (inventory : List InventoryRow) (customers : List CustomerRow) :
    List (String × Nat × Int) :=
  (sort_values false (product_perf categoryFilter sales inventory customers)).take 10

/-- Line 80: the ten rows charted as "Bottom 10 Products by Units Sold". -/
def bottomProducts (categoryFilter : List String) (sales : List SaleRow)
    (inventory : List InventoryRow) (customers : List CustomerRow) :
    List (String × Nat × Int) :=
  (sort_values true (product_perf categoryFilter sales inventory customers)).take 10

/-- Lines 85-91: per-customer aggregate over the filtered merged table. A
row is `(customerid, total_orders, total_spent, age, gender, location)`,
with age/gender/location taken from the first row of the group. -/
def cust_seg (categoryFilter : List String) (sales : List SaleRow)
    (inventory : List InventoryRow) (customers : List CustomerRow) :
    List (Nat × Nat × Int × Nat × String × String) :=
  let m := mergedFiltered categoryFilter sales inventory customers
  (sortedKeysN (m.map fun r => r.customerid)).map fun cid =>
    let rows := m.filter fun r => decide (r.customerid = cid)
    (cid, rows.length,
     (rows.map fun r => r.price_x * (r.quantitypurchased : Int)).sum,
     (rows.map fun r => r.age).headI,
     (rows.map fun r => r.gender).headI,
     (rows.map fun r => r.location).headI)

/-- Number of rows of the raw `sales` table belonging to one customer: the
`total_orders=('transactionid', 'count')` aggregation of line 101. -/
def countTransactions (sales : List SaleRow) (cid : Nat) : Nat :=
  (sales.filter fun s => decide (s.customerid = cid)).length

/-- Lines 104-108: the segment classifier applied to an order count. -/
def segmentOf (x : Nat) : String :=
  if x = 0 then "Inactive"
  else if x ≤ 5 then "Low"
  else if x ≤ 7 then "Medium"
  else "High"

/-- Lines 100-108: group the raw (unfiltered, unjoined) `sales` table by
`customerid`, count transactions, and attach the segment label. -/
def customer_segments (sales : List SaleRow) : List (Nat × Nat × String) :=
  (sortedKeysN (sales.map fun s => s.customerid)).map fun cid =>
    (cid, countTransactions sales cid, segmentOf (countTransactions sales cid))

/-- Line 125 aggregation body, `x.dt.date.nunique()`: the number of distinct
calendar dates among one customer's transaction timestamps. -/
def active_days (sales : List SaleRow) (cid : Nat) : Nat :=
  nunique ((sales.filter fun s => decide (s.customerid = cid)).map
    fun s => s.transactiondate.date)

/-- Lines 124-126: the per-customer `active_days` aggregate, before the
`> 1` filter. -/
def repeat_customers_agg (sales : List SaleRow) : List (Nat × Nat) :=
  (sortedKeysN (sales.map fun s => s.customerid)).map fun cid =>
    (cid, active_days sales cid)

/-- Line 128: retain only the customers with `active_days > 1`. -/
def repeat_customers (sales : List SaleRow) : List (Nat × Nat) :=
  (repeat_customers_agg sales).filter fun p => decide (1 < p.2)

/-- Line 142: `pd.to_datetime` applied to a column that is already of
datetime dtype is the identity conversion. -/
def to_datetime (t : Timestamp) : Timestamp := t

/-- Lines 141-142: `loyalty_df = sales.copy()` with `transactiondate`
passed through `pd.to_datetime`. -/
def loyalty_df (sales : List SaleRow) : List SaleRow :=
  sales.map fun s => { s with transactiondate := to_datetime s.transactiondate }

/-- Line 144 aggregation body on the loyalty copy, `x.dt.date.nunique()`. -/
def days_active (df : List SaleRow) (cid : Nat) : Nat :=
  nunique ((df.filter fun s => decide (s.customerid = cid)).map
    fun s => s.transactiondate.date)

/-- Lines 143-146: the loyalty aggregate, one row
`(customerid, days_active, total_orders)` per customer. -/
def loyalty_repeat (sales : List SaleRow) : List (Nat × Nat × Nat) :=
  (sortedKeysN ((loyalty_df sales).map fun s => s.customerid)).map fun cid =>
    (cid, days_active (loyalty_df sales) cid,
     ((loyalty_df sales).filter fun s => decide (s.customerid = cid)).length)

/-- Line 158: `transactiondate.dt.to_period("M").astype(str)`, the
zero-padded "YYYY-MM" bucket string of a timestamp. -/
def to_period_M (t : Timestamp) : String :=
  toString t.date.year ++ "-" ++
    (if t.date.month < 10 then "0" ++ toString t.date.month else toString t.date.month)

/-- The `month` column added to `sales` at line 158. -/
def month_col (s : SaleRow) : String := to_period_M s.transactiondate

/-- Lines 161-163: group the whole `sales` table by the month string (group
keys ascending) and sum `quantitypurchased * price` — the sales table's own
`price` column — per bucket. -/
def monthly (sales : List SaleRow) : List (String × Int) :=
  (sortedKeysS (sales.map month_col)).map fun m =>
    (m, ((sales.filter fun s => decide (month_col s = m)).map
      fun s => (s.quantitypurchased : Int) * s.price).sum)

/-- Fixture timestamp. -/
def exDate : Timestamp := ⟨⟨2024, 3, 5⟩, 0⟩

/-- Fixture sale: quantity 1 at sale-time price 10. -/
def exSale : SaleRow := ⟨1, 1, 1, 1, 10, exDate⟩

/-- Fixture inventory row for the same product, list price 20 (different
from the sale-time price 10). -/
def exItem : InventoryRow := ⟨1, "A", "cat", 20⟩

/-- Fixture customer. -/
def exCust : CustomerRow := ⟨1, 30, "F", "X"⟩

/-- Fixture sale referencing productid 99, absent from every inventory
fixture, by customer 7. -/
def straySale : SaleRow := ⟨9, 99, 7, 3, 4, exDate⟩

/-- Fixture inventory: three products A, B, C in one category "c". -/
def tieInv : List InventoryRow := [⟨1, "A", "c", 1⟩, ⟨2, "B", "c", 1⟩, ⟨3, "C", "c", 1⟩]

/-- Fixture sales giving units sold A = 5, B = 5, C = 10: a tie between the
two products listed first. -/
def tieSales : List SaleRow :=
  [⟨1, 1, 1, 5, 1, exDate⟩, ⟨2, 2, 1, 5, 1, exDate⟩, ⟨3, 3, 1, 10, 1, exDate⟩]

/-- Fixture sales giving units sold A = 5, B = 10, C = 3: the spec's
`[5,10,3]` product-sort example. -/
def specSales : List SaleRow :=
  [⟨1, 1, 1, 5, 1, exDate⟩, ⟨2, 2, 1, 10, 1, exDate⟩, ⟨3, 3, 1, 3, 1, exDate⟩]

/-- Fixture sale of the monthly-revenue example: 2024-03-05, quantity 2,
price 10. -/
def mSale1 : SaleRow := ⟨1, 1, 1, 2, 10, ⟨⟨2024, 3, 5⟩, 0⟩⟩

/-- Fixture sale of the monthly-revenue example: 2024-03-28, quantity 1,
price 5. -/
def mSale2 : SaleRow := ⟨2, 1, 1, 1, 5, ⟨⟨2024, 3, 28⟩, 0⟩⟩

/-- Fixture sales for the repeat-customer claim: customer 1 has two
transactions at different times of the same calendar date, customer 2 has
transactions on two distinct dates. -/
def repSales : List SaleRow :=
  [⟨1, 1, 1, 1, 1, ⟨⟨2024, 1, 1⟩, 5⟩⟩, ⟨2, 1, 1, 1, 1, ⟨⟨2024, 1, 1⟩, 9⟩⟩,
   ⟨3, 1, 2, 1, 1, ⟨⟨2024, 1, 1⟩, 0⟩⟩, ⟨4, 1, 2, 1, 1, ⟨⟨2024, 1, 2⟩, 0⟩⟩]

/-- Fixture sales: customer 3 makes six transactions. -/
def segSales : List SaleRow :=
  [⟨1, 1, 3, 1, 1, exDate⟩, ⟨2, 1, 3, 1, 1, exDate⟩, ⟨3, 1, 3, 1, 1, exDate⟩,
   ⟨4, 1, 3, 1, 1, exDate⟩, ⟨5, 1, 3, 1, 1, exDate⟩, ⟨6, 1, 3, 1, 1, exDate⟩]

/-! Supporting lemmas: the string comparison is total and transitive, group
keys are distinct and cover the grouped rows, and a sum over a grouped table
can be decomposed group by group. -/

theorem chLe_total : ∀ x y, chLe x y = true ∨ chLe y x = true := by
  intro x
  induction x with
  | nil => intro y; left; rfl
  | cons a as ih =>
    intro y
    cases y with
    | nil => right; rfl
    | cons b bs =>
      by_cases hab : a < b
      · left; simp [chLe, hab]
      · by_cases hba : b < a
        · right; simp [chLe, hba]
        · cases ih bs with
          | inl h => left; simp [chLe, hab, hba, h]
          | inr h => right; simp [chLe, hab, hba, h]

theorem chLe_trans : ∀ x y z, chLe x y = true → chLe y z = true → chLe x z = true := by
  intro x
  induction x with
  | nil => intro y z _ _; rfl
  | cons a as ih =>
    intro y z hxy hyz
    cases y with
    | nil => simp [chLe] at hxy
    | cons b bs =>
      cases z with
      | nil => simp [chLe] at hyz
      | cons c cs =>
        by_cases hab : a < b
        · by_cases hbc : b < c
          · simp [chLe, lt_trans hab hbc]
          · have hcb : ¬c < b := by
              intro hcb; simp [chLe, hbc, hcb] at hyz
            have hac : a < c := lt_of_lt_of_le hab (not_lt.mp hcb)
            simp [chLe, hac]
        · have hba : ¬b < a := by
            intro hba; simp [chLe, hab, hba] at hxy
          have hab' : a = b := le_antisymm (not_lt.mp hba) (not_lt.mp hab)
          subst hab'
          by_cases hac : a < c
          · simp [chLe, hac]
          · have hca : ¬c < a := by
              intro hca; simp [chLe, hac, hca] at hyz
            simp [chLe, hab, hba] at hxy
            simp [chLe, hac, hca] at hyz ⊢
            exact ih bs cs hxy hyz

instance : IsTotal String strOrd := ⟨fun a b => chLe_total a.data b.data⟩

instance : IsTrans String strOrd := ⟨fun a b c => chLe_trans a.data b.data c.data⟩

instance : IsTotal (String × Nat × Int) unitsLe := ⟨fun a b => Nat.le_total a.2.1 b.2.1⟩

instance : IsTrans (String × Nat × Int) unitsLe := ⟨fun _ _ _ => Nat.le_trans⟩

theorem mem_sortedKeysN {k : Nat} {l : List Nat} : k ∈ sortedKeysN l ↔ k ∈ l := by
  unfold sortedKeysN
  rw [List.mem_insertionSort, List.mem_dedup]

theorem mem_sortedKeysS {m : String} {l : List String} : m ∈ sortedKeysS l ↔ m ∈ l := by
  unfold sortedKeysS
  rw [List.mem_insertionSort, List.mem_dedup]

theorem nodup_sortedKeysS (l : List String) : (sortedKeysS l).Nodup :=
  (List.perm_insertionSort strOrd l.dedup).symm.nodup (List.nodup_dedup l)

theorem sum_map_filter_not {α : Type} (p : α → Bool) (f : α → Int) (l : List α) :
    ((l.filter p).map f).sum + ((l.filter fun a => !(p a)).map f).sum = (l.map f).sum := by
  induction l with
  | nil => rfl
  | cons a l ih =>
    by_cases h : p a
    · simp only [List.filter_cons, h, Bool.not_true, if_true, List.map_cons, List.sum_cons,
        if_false, Bool.false_eq_true]
      omega
    · simp only [List.filter_cons, h, Bool.not_false, if_false, List.map_cons, List.sum_cons,
        if_true, Bool.false_eq_true]
      omega

theorem group_sum {α κ : Type} [DecidableEq κ] (key : α → κ) (f : α → Int) :
    ∀ (ks : List κ) (l : List α), ks.Nodup → (∀ x ∈ l, key x ∈ ks) →
      (ks.map fun k => ((l.filter fun x => decide (key x = k)).map f).sum).sum =
        (l.map f).sum := by
  intro ks
  induction ks with
  | nil =>
    intro l _ hcov
    cases l with
    | nil => rfl
    | cons x l => exact absurd (hcov x (List.mem_cons_self x l)) (List.not_mem_nil _)
  | cons k ks ih =>
    intro l hnd hcov
    rw [List.map_cons, List.sum_cons]
    have hrest : ∀ k' ∈ ks,
        (l.filter fun x => decide (key x = k')) =
          ((l.filter fun x => !(decide (key x = k))).filter fun x => decide (key x = k')) := by
      intro k' hk'
      have hk'k : k' ≠ k := by
        intro hkk; exact (List.nodup_cons.mp hnd).1 (hkk ▸ hk')
      rw [List.filter_filter]
      apply List.filter_congr
      intro x _
      by_cases hx : key x = k'
      · have hxk : key x ≠ k := by rw [hx]; exact hk'k
        simp [hx, hxk, hk'k]
      · simp [hx]
    have hmapeq :
        (ks.map fun k' => ((l.filter fun x => decide (key x = k')).map f).sum) =
          (ks.map fun k' =>
            (((l.filter fun x => !(decide (key x = k))).filter
              fun x => decide (key x = k')).map f).sum) := by
      apply List.map_congr_left
      intro k' hk'
      rw [hrest k' hk']
    rw [hmapeq, ih (l.filter fun x => !(decide (key x = k))) (List.nodup_cons.mp hnd).2]
    · exact sum_map_filter_not (fun x => decide (key x = k)) f l
    · intro x hx
      obtain ⟨hxl, hxk⟩ := List.mem_filter.mp hx
      have := hcov x hxl
      simp only [List.mem_cons] at this
      rcases this with h | h
      · simp [h] at hxk
      · exact h

/-! Claim theorems. -/

/-- C2: customer segmentation is a pure step function of the per-customer
transaction count over the raw sales table: every output row pairs a
customer with its raw transaction count and the label of that count, where
the classifier maps 0 to "Inactive", 1-5 to "Low", 6-7 to "Medium" and
greater counts to "High". -/
theorem customer_segments_step (sales : List SaleRow) (cid n : Nat) (seg : String)
    (h : (cid, n, seg) ∈ customer_segments sales) :
    n = countTransactions sales cid ∧ seg = segmentOf n ∧
    segmentOf 0 = "Inactive" ∧
    (∀ m, 1 ≤ m → m ≤ 5 → segmentOf m = "Low") ∧
    (∀ m, 6 ≤ m → m ≤ 7 → segmentOf m = "Medium") ∧
    (∀ m, 7 < m → segmentOf m = "High") := by
  obtain ⟨k, _, he⟩ := List.mem_map.mp h
  simp only [Prod.mk.injEq] at he
  obtain ⟨rfl, hn, hs⟩ := he
  refine ⟨hn.symm, by rw [← hs, hn], rfl, ?_, ?_, ?_⟩
  · intro m h1 h5
    unfold segmentOf
    rw [if_neg (by omega), if_pos h5]
  · intro m h6 h7
    unfold segmentOf
    rw [if_neg (by omega), if_neg (by omega), if_pos h7]
  · intro m h7
    unfold segmentOf
    rw [if_neg (by omega), if_neg (by omega), if_neg (by omega)]

/-- C2 witness: customer 3 of `segSales` has six transactions and is
labelled "Medium"; the classifier takes the claimed values at the band
boundaries 1, 5, 6, 7 and 8. -/
theorem customer_segments_step_witness :
    (6 = countTransactions segSales 3 ∧ "Medium" = segmentOf 6 ∧
      segmentOf 0 = "Inactive" ∧
      (∀ m, 1 ≤ m → m ≤ 5 → segmentOf m = "Low") ∧
      (∀ m, 6 ≤ m → m ≤ 7 → segmentOf m = "Medium") ∧
      (∀ m, 7 < m → segmentOf m = "High")) ∧
    segmentOf 1 = "Low" ∧ segmentOf 5 = "Low" ∧ segmentOf 6 = "Medium" ∧
    segmentOf 7 = "Medium" ∧ segmentOf 8 = "High" :=
  ⟨customer_segments_step segSales 3 6 "Medium" (by decide),
   rfl, rfl, rfl, rfl, rfl⟩

/-- C3: for every category filter the `total_orders` KPI is the number of
distinct `transactionid` values among the merged rows whose category is
selected, and with the empty filter it is 0. -/
theorem total_orders_distinct (categoryFilter : List String) (sales : List SaleRow)
    (inventory : List InventoryRow) (customers : List CustomerRow) :
    total_orders categoryFilter sales inventory customers =
      ((mergedFiltered categoryFilter sales inventory customers).map
        fun r => r.transactionid).toFinset.card ∧
    total_orders [] sales inventory customers = 0 := by
  constructor
  · rw [List.card_toFinset]; rfl
  · have hm : mergedFiltered [] sales inventory customers = [] := by
      simp [mergedFiltered]
    simp [total_orders, hm, nunique]

/-- C4: if the category filter excludes the category of every merged row —
in particular if it is empty — then all three KPIs are zero. -/
theorem kpis_zero_of_filter_excludes (categoryFilter : List String)
    (sales : List SaleRow) (inventory : List InventoryRow) (customers : List CustomerRow)
    (h : ∀ r ∈ merged sales inventory customers, r.category ∉ categoryFilter) :
    total_revenue categoryFilter sales inventory customers = 0 ∧
    total_orders categoryFilter sales inventory customers = 0 ∧
    total_customers categoryFilter sales inventory customers = 0 := by
  have hm : mergedFiltered categoryFilter sales inventory customers = [] :=
    List.filter_eq_nil_iff.mpr fun r hr => by simp [h r hr]
  refine ⟨?_, ?_, ?_⟩ <;> simp [total_revenue, total_orders, total_customers, hm, nunique]

/-- C4 witness: with the empty filter selection and a nonempty merged table
all three KPIs evaluate to zero. -/
theorem kpis_zero_of_filter_excludes_witness :
    total_revenue [] [exSale] [exItem] [exCust] = 0 ∧
    total_orders [] [exSale] [exItem] [exCust] = 0 ∧
    total_customers [] [exSale] [exItem] [exCust] = 0 :=
  kpis_zero_of_filter_excludes [] [exSale] [exItem] [exCust]
    (fun r _ => List.not_mem_nil r.category)

/-- C8: the repeat-customer table contains exactly the customers of the raw
sales table whose number of distinct transaction calendar dates exceeds 1,
paired with that number; on the fixture, customer 1 (two transactions, one
calendar date) is excluded while customer 2 (two dates) appears with
`active_days = 2`. -/
theorem repeat_customers_spec :
    (∀ (sales : List SaleRow) (cid d : Nat),
      (cid, d) ∈ repeat_customers sales ↔
        (∃ s ∈ sales, s.customerid = cid) ∧ d = active_days sales cid ∧ 1 < d) ∧
    repeat_customers repSales = [(2, 2)] := by
  constructor
  · intro sales cid d
    constructor
    · intro h
      obtain ⟨hmem, hd⟩ := List.mem_filter.mp h
      obtain ⟨k, hk, he⟩ := List.mem_map.mp hmem
      simp only [Prod.mk.injEq] at he
      obtain ⟨rfl, rfl⟩ := he
      have hk' := mem_sortedKeysN.mp hk
      obtain ⟨s, hs, hsk⟩ := List.mem_map.mp hk'
      exact ⟨⟨s, hs, hsk⟩, rfl, by simpa using hd⟩
    · rintro ⟨⟨s, hs, hsk⟩, rfl, h1⟩
      apply List.mem_filter.mpr
      refine ⟨List.mem_map.mpr ⟨cid, ?_, rfl⟩, by simpa using h1⟩
      exact mem_sortedKeysN.mpr (List.mem_map.mpr ⟨s, hs, hsk⟩)
  · decide

/-- C9: every row of the segmentation output has a transaction count of at
least 1, so the "Inactive" label is never assigned. -/
theorem customer_segments_no_inactive (sales : List SaleRow) (cid n : Nat) (seg : String)
    (h : (cid, n, seg) ∈ customer_segments sales) :
    1 ≤ n ∧ seg ≠ "Inactive" := by
  obtain ⟨k, hk, he⟩ := List.mem_map.mp h
  simp only [Prod.mk.injEq] at he
  obtain ⟨rfl, hn, hs⟩ := he
  have hk' := mem_sortedKeysN.mp hk
  obtain ⟨s, hsmem, hsk⟩ := List.mem_map.mp hk'
  have hpos : 0 < countTransactions sales k := by
    apply List.length_pos_of_mem (a := s)
    exact List.mem_filter.mpr ⟨hsmem, by simp [hsk]⟩
  constructor
  · omega
  · rw [← hs]
    unfold segmentOf
    rw [if_neg (by omega)]
    split_ifs <;> decide

/-- C9 witness: the single customer of `[exSale]` appears with count 1 and a
label other than "Inactive". -/
theorem customer_segments_no_inactive_witness : 1 ≤ 1 ∧ "Low" ≠ "Inactive" :=
  customer_segments_no_inactive [exSale] 1 1 "Low" (by decide)

/-- C10: on a sales table whose `transactiondate` column is already of
datetime dtype, the loyalty aggregate computes the same per-customer
distinct-date count as the repeat-customer aggregate: projecting
`loyalty_repeat` to `(customerid, days_active)` yields exactly
`repeat_customers_agg`, and the two count functions agree on every
customer. -/
theorem loyalty_days_agree (sales : List SaleRow) :
    (loyalty_repeat sales).map (fun r => (r.1, r.2.1)) = repeat_customers_agg sales ∧
    ∀ cid, days_active (loyalty_df sales) cid = active_days sales cid := by
  have hl : loyalty_df sales = sales := List.map_id' sales
  constructor
  · rw [loyalty_repeat, hl, repeat_customers_agg, List.map_map]
    rfl
  · intro cid
    rw [hl]
    rfl

/-- C6: the monthly revenue series has one row per year-month bucket string
occurring in the sales table, ordered ascending and without duplicates; the
value of a bucket sums `quantitypurchased * price` — the sales table's own
price — over the transactions of that bucket; on the fixture, 2024-03-05
(quantity 2, price 10) and 2024-03-28 (quantity 1, price 5) give the single
bucket "2024-03" with revenue 25. -/
theorem monthly_spec :
    (∀ sales : List SaleRow,
      ((monthly sales).map Prod.fst).Sorted strOrd ∧
      ((monthly sales).map Prod.fst).Nodup ∧
      (∀ p ∈ monthly sales,
        p.2 = ((sales.filter fun s => decide (month_col s = p.1)).map
          fun s => (s.quantitypurchased : Int) * s.price).sum ∧
        ∃ s ∈ sales, month_col s = p.1) ∧
      (∀ s ∈ sales, month_col s ∈ (monthly sales).map Prod.fst)) ∧
    monthly [mSale1, mSale2] = [("2024-03", 25)] := by
  constructor
  · intro sales
    have hfst : (monthly sales).map Prod.fst = sortedKeysS (sales.map month_col) := by
      rw [monthly, List.map_map]
      exact List.map_id' _
    refine ⟨?_, ?_, ?_, ?_⟩
    · rw [hfst]
      exact List.sorted_insertionSort strOrd _
    · rw [hfst]
      exact nodup_sortedKeysS _
    · intro p hp
      obtain ⟨m, hm, he⟩ := List.mem_map.mp hp
      subst he
      refine ⟨rfl, ?_⟩
      obtain ⟨s, hs, hms⟩ := List.mem_map.mp (mem_sortedKeysS.mp hm)
      exact ⟨s, hs, hms⟩
    · intro s hs
      rw [hfst]
      exact mem_sortedKeysS.mpr (List.mem_map.mpr ⟨s, hs, rfl⟩)
  · decide

/-- C1 counterexample: at a one-row instance whose sale-time price (10)
differs from the inventory list price (20), the KPI revenue evaluates to 10
— the `price_x` (sales) column — not to the inventory-price sum 20, and it
coincides with the monthly-revenue total: the KPI and the monthly series do
not draw on different price sources. -/
theorem price_source_counterexample :
    total_revenue ["cat"] [exSale] [exItem] [exCust] = 10 ∧
    ((mergedFiltered ["cat"] [exSale] [exItem] [exCust]).map
      fun r => (r.quantitypurchased : Int) * r.price_y).sum = 20 ∧
    ((monthly [exSale]).map Prod.snd).sum = 10 ∧
    (10 : Int) ≠ 20 := by decide

theorem monthly_total (sales : List SaleRow) :
    ((monthly sales).map Prod.snd).sum =
      (sales.map fun s => (s.quantitypurchased : Int) * s.price).sum := by
  have h : (monthly sales).map Prod.snd =
      (sortedKeysS (sales.map month_col)).map
        (fun m => ((sales.filter fun s => decide (month_col s = m)).map
          fun s => (s.quantitypurchased : Int) * s.price).sum) := by
    rw [monthly, List.map_map]
    rfl
  rw [h]
  apply group_sum month_col (fun s => (s.quantitypurchased : Int) * s.price)
  · exact nodup_sortedKeysS _
  · intro x hx
    exact mem_sortedKeysS.mpr (List.mem_map.mpr ⟨x, hx, rfl⟩)

theorem total_revenue_sale_price (categoryFilter : List String)
    (inventory : List InventoryRow) (customers : List CustomerRow) :
    ∀ sales : List SaleRow,
      (∀ s ∈ sales, ∃ i, (inventory.filter fun r => decide (r.productid = s.productid)) = [i] ∧
        i.category ∈ categoryFilter) →
      (∀ s ∈ sales, ∃ c, (customers.filter fun r => decide (r.customerid = s.customerid)) = [c]) →
      total_revenue categoryFilter sales inventory customers =
        (sales.map fun s => (s.quantitypurchased : Int) * s.price).sum := by
  intro sales
  induction sales with
  | nil => intro _ _; rfl
  | cons s rest ih =>
    intro hinv hcust
    obtain ⟨i, hi, hic⟩ := hinv s (List.mem_cons_self s rest)
    obtain ⟨c, hc⟩ := hcust s (List.mem_cons_self s rest)
    have hmerged : merged (s :: rest) inventory customers =
        mkMergedRow s i c :: merged rest inventory customers := by
      unfold merged salesInventory
      rw [List.flatMap_cons, List.flatMap_append, hi]
      simp [hc]
    have hmf : mergedFiltered categoryFilter (s :: rest) inventory customers =
        mkMergedRow s i c :: mergedFiltered categoryFilter rest inventory customers := by
      unfold mergedFiltered
      rw [hmerged, List.filter_cons]
      simp [mkMergedRow, hic]
    unfold total_revenue at *
    rw [hmf, List.map_cons, List.sum_cons,
      ih (fun x hx => hinv x (List.mem_cons_of_mem s hx))
        (fun x hx => hcust x (List.mem_cons_of_mem s hx))]
    rfl

/-- C1 amended: after the join, `price_x` is the sales (left) table's own
price, so the KPI and product-performance revenues are computed from the
sale-time price — the same price source the monthly series uses — while the
inventory price is carried separately as `price_y`. When every sale matches
exactly one inventory row of a selected category and exactly one customer
row, the KPI revenue, the monthly-series total and the sale-price sum all
coincide. -/
theorem price_sources_agree (categoryFilter : List String) (sales : List SaleRow)
    (inventory : List InventoryRow) (customers : List CustomerRow)
    (hinv : ∀ s ∈ sales, ∃ i,
      (inventory.filter fun r => decide (r.productid = s.productid)) = [i] ∧
      i.category ∈ categoryFilter)
    (hcust : ∀ s ∈ sales, ∃ c,
      (customers.filter fun r => decide (r.customerid = s.customerid)) = [c]) :
    total_revenue categoryFilter sales inventory customers =
      (sales.map fun s => (s.quantitypurchased : Int) * s.price).sum ∧
    ((monthly sales).map Prod.snd).sum =
      (sales.map fun s => (s.quantitypurchased : Int) * s.price).sum ∧
    total_revenue categoryFilter sales inventory customers =
      ((monthly sales).map Prod.snd).sum := by
  have h1 := total_revenue_sale_price categoryFilter inventory customers sales hinv hcust
  have h2 := monthly_total sales
  exact ⟨h1, h2, by rw [h1, h2]⟩

/-- C1 amended witness: on the fixture, the KPI revenue, the sale-price sum
and the monthly total all equal 10. -/
theorem price_sources_agree_witness :
    total_revenue ["cat"] [exSale] [exItem] [exCust] =
      ([exSale].map fun s => (s.quantitypurchased : Int) * s.price).sum ∧
    ((monthly [exSale]).map Prod.snd).sum =
      ([exSale].map fun s => (s.quantitypurchased : Int) * s.price).sum ∧
    total_revenue ["cat"] [exSale] [exItem] [exCust] =
      ((monthly [exSale]).map Prod.snd).sum :=
  price_sources_agree ["cat"] [exSale] [exItem] [exCust]
    (by intro s hs
        rcases List.mem_singleton.mp hs with rfl
        exact ⟨exItem, by decide, by decide⟩)
    (by intro s hs
        rcases List.mem_singleton.mp hs with rfl
        exact ⟨exCust, by decide⟩)

/-- C5 counterexample: with units sold A = 5, B = 5, C = 10 (product-perf
input order A, B, C), the "top 10" chart order is C, B, A — the tied
products appear in reverse input order, because `sort_values` with
`ascending=False` reverses the ascending order — not C, A, B as a stable
descending sort with ties in input order would give. -/
theorem product_sort_counterexample :
    topProducts ["c"] tieSales tieInv [exCust] =
      [("C", 10, 10), ("B", 5, 5), ("A", 5, 5)] ∧
    topProducts ["c"] tieSales tieInv [exCust] ≠
      [("C", 10, 10), ("A", 5, 5), ("B", 5, 5)] := by decide

/-- C5 amended: the "top 10" rows are sorted descending and the "bottom 10"
rows ascending by `total_units_sold`, each a permutation of the
product-performance rows, and the top order is the reverse of the bottom
order — both charts read off one ascending argsort of the key, which
`pandas` reverses for `ascending=False` — so the top sort cannot break ties
by input order whenever the bottom sort does; for units [5,10,3] top is
[10,5,3] and bottom is [3,5,10], and on the tie fixture (units [5,5,10],
sorted by numpy's stable small-array path) the bottom chart keeps the tied
products in input order while the top chart shows them reversed. -/
theorem product_sort_amended :
    (∀ (categoryFilter : List String) (sales : List SaleRow)
        (inventory : List InventoryRow) (customers : List CustomerRow),
      (topProducts categoryFilter sales inventory customers).Sorted
        (fun a b => b.2.1 ≤ a.2.1) ∧
      (bottomProducts categoryFilter sales inventory customers).Sorted
        (fun a b => a.2.1 ≤ b.2.1)) ∧
    (∀ l : List (String × Nat × Int), sort_values false l = (sort_values true l).reverse) ∧
    (∀ l : List (String × Nat × Int), (sort_values true l).Perm l) ∧
    topProducts ["c"] specSales tieInv [exCust] =
      [("B", 10, 10), ("A", 5, 5), ("C", 3, 3)] ∧
    bottomProducts ["c"] specSales tieInv [exCust] =
      [("C", 3, 3), ("A", 5, 5), ("B", 10, 10)] ∧
    bottomProducts ["c"] tieSales tieInv [exCust] =
      [("A", 5, 5), ("B", 5, 5), ("C", 10, 10)] ∧
    topProducts ["c"] tieSales tieInv [exCust] =
      [("C", 10, 10), ("B", 5, 5), ("A", 5, 5)] := by
  refine ⟨?_, fun l => rfl, fun l => List.perm_insertionSort unitsLe l,
    by decide, by decide, by decide, by decide⟩
  intro categoryFilter sales inventory customers
  have hasc := List.sorted_insertionSort unitsLe
    (product_perf categoryFilter sales inventory customers)
  constructor
  · apply List.Pairwise.sublist (List.take_sublist 10 _)
    exact List.pairwise_reverse.mpr hasc
  · exact List.Pairwise.sublist (List.take_sublist 10 _) hasc

/-- C7: a sale whose `productid` matches no inventory row, or whose
`customerid` matches no customer row, is dropped by the inner join:
prepending it changes neither the merged table nor any merged-table-derived
metric (the three KPIs, the product-performance table, the per-customer
aggregate), while the raw-sales segmentation count of its customer
increases by one. -/
theorem unmatched_sale_invariant (categoryFilter : List String) (s : SaleRow)
    (sales : List SaleRow) (inventory : List InventoryRow) (customers : List CustomerRow)
    (h : (∀ i ∈ inventory, i.productid ≠ s.productid) ∨
         (∀ c ∈ customers, c.customerid ≠ s.customerid)) :
    merged (s :: sales) inventory customers = merged sales inventory customers ∧
    total_revenue categoryFilter (s :: sales) inventory customers =
      total_revenue categoryFilter sales inventory customers ∧
    total_orders categoryFilter (s :: sales) inventory customers =
      total_orders categoryFilter sales inventory customers ∧
    total_customers categoryFilter (s :: sales) inventory customers =
      total_customers categoryFilter sales inventory customers ∧
    product_perf categoryFilter (s :: sales) inventory customers =
      product_perf categoryFilter sales inventory customers ∧
    cust_seg categoryFilter (s :: sales) inventory customers =
      cust_seg categoryFilter sales inventory customers ∧
    countTransactions (s :: sales) s.customerid =
      countTransactions sales s.customerid + 1 := by
  have hm : merged (s :: sales) inventory customers = merged sales inventory customers := by
    unfold merged salesInventory
    rw [List.flatMap_cons, List.flatMap_append]
    rcases h with h | h
    · have hf : inventory.filter (fun i => decide (i.productid = s.productid)) = [] :=
        List.filter_eq_nil_iff.mpr fun i hi => by simpa using h i hi
      rw [hf]
      rfl
    · have hz : ∀ si ∈ (inventory.filter fun i => decide (i.productid = s.productid)).map
          (fun i => (s, i)),
          ((customers.filter fun c => decide (c.customerid = si.1.customerid)).map
            fun c => mkMergedRow si.1 si.2 c) = [] := by
        intro si hsi
        obtain ⟨i, _, rfl⟩ := List.mem_map.mp hsi
        have hcf : customers.filter (fun c => decide (c.customerid = s.customerid)) = [] :=
          List.filter_eq_nil_iff.mpr fun c hc => by simpa using h c hc
        simpa using hcf
      rw [List.flatMap_eq_nil_iff.mpr hz]
      rfl
  have hmf : mergedFiltered categoryFilter (s :: sales) inventory customers =
      mergedFiltered categoryFilter sales inventory customers := by
    unfold mergedFiltered
    rw [hm]
  refine ⟨hm, ?_, ?_, ?_, ?_, ?_, ?_⟩
  · unfold total_revenue
    rw [hmf]
  · unfold total_orders
    rw [hmf]
  · unfold total_customers
    rw [hmf]
  · unfold product_perf
    rw [hmf]
  · unfold cust_seg
    rw [hmf]
  · unfold countTransactions
    rw [List.filter_cons]
    simp

/-- C7 witness: `straySale` references productid 99, absent from the
fixture inventory; prepending it leaves every merged-table-derived metric
unchanged and increments its customer's raw transaction count. -/
theorem unmatched_sale_invariant_witness :
    merged (straySale :: [exSale]) [exItem] [exCust] = merged [exSale] [exItem] [exCust] ∧
    total_revenue ["cat"] (straySale :: [exSale]) [exItem] [exCust] =
      total_revenue ["cat"] [exSale] [exItem] [exCust] ∧
    total_orders ["cat"] (straySale :: [exSale]) [exItem] [exCust] =
      total_orders ["cat"] [exSale] [exItem] [exCust] ∧
    total_customers ["cat"] (straySale :: [exSale]) [exItem] [exCust] =
      total_customers ["cat"] [exSale] [exItem] [exCust] ∧
    product_perf ["cat"] (straySale :: [exSale]) [exItem] [exCust] =
      product_perf ["cat"] [exSale] [exItem] [exCust] ∧
    cust_seg ["cat"] (straySale :: [exSale]) [exItem] [exCust] =
      cust_seg ["cat"] [exSale] [exItem] [exCust] ∧
    countTransactions (straySale :: [exSale]) straySale.customerid =
      countTransactions [exSale] straySale.customerid + 1 :=
  unmatched_sale_invariant ["cat"] straySale [exSale] [exItem] [exCust]
    (Or.inl (by decide))
